import Mathlib

/-!
Verification of the tvdb_api data-access core (src/tvdb_api.py) against its
natural-language specification.

The Python classes are shallowly embedded:
  * Python dicts become insertion-ordered association lists (`dictGet?`,
    `dictSet`, `dictErase`, `dictModify` mirror `d[k]`, `d[k] = v`, `del d[k]`
    and in-place mutation of a stored object);
  * JSON values carried in API responses become `JVal` (null / int / string);
    dict keys coming from user code or JSON become `PyKey` (int / string) —
    in Python `1` and `"1"` are distinct dict keys, and so they are here;
  * `ShowContainer` (tvdb_api.py lines 59-78) keeps its `_stack` insertion
    ledger and `_lastgc` debounce timestamp; wall-clock instants are modelled
    as naturals passed in explicitly (`time.time()` at each call site);
  * exceptions become an `Except TvdbErr` result; `TvdbErr` has one
    constructor per tvdb exception class plus `typeErr` (Python TypeError)
    and `keyErr` (a raw dict KeyError escaping untyped).
-/

namespace TvdbApi

/-- JSON-ish values held in records fetched from the API: None / int / str. -/
inductive JVal : Type where
  | null : JVal
  | int (n : Int) : JVal
  | str (s : String) : JVal
deriving DecidableEq, Repr

/-- Python dict keys reachable in this program: ints and strings
(`1` and `"1"` are distinct keys, as in Python). -/
inductive PyKey : Type where
  | int (n : Int) : PyKey
  | str (s : String) : PyKey
deriving DecidableEq, Repr

/-- Error kinds: the five tvdb exception classes of tvdb_exceptions plus a
Python TypeError, a raw dict KeyError, and a raw Python AttributeError
(e.g. from calling a method an object does not have) — the latter two are
not among the typed kinds. -/
inductive TvdbErr : Type where
  | showNotFound : TvdbErr
  | seasonNotFound : TvdbErr
  | episodeNotFound : TvdbErr
  | attributeNotFound : TvdbErr
  | fetchFailed : TvdbErr
  | typeErr : TvdbErr
  | keyErr : TvdbErr
  | pyAttrErr : TvdbErr
deriving DecidableEq, Repr

instance instDecEqExcept {ε α : Type} [DecidableEq ε] [DecidableEq α] :
    DecidableEq (Except ε α) := fun x y =>
  match x, y with
  | .error e, .error e' => decidable_of_iff (e = e') (by simp)
  | .ok a, .ok b => decidable_of_iff (a = b) (by simp)
  | .error _, .ok _ => isFalse (fun hc => Except.noConfusion hc)
  | .ok _, .error _ => isFalse (fun hc => Except.noConfusion hc)

section Dict

variable {κ α : Type} [DecidableEq κ]

/-- Python dict read `d.get(k)` / `d[k]` lookup: first (and only) binding of
the key in an insertion-ordered association list. -/
def dictGet? : List (κ × α) → κ → Option α
  | [], _ => none
  | p :: rest, k => if p.1 = k then some p.2 else dictGet? rest k

/-- Python dict write `d[k] = v`: update in place if the key is present
(keeping its position), else append. -/
def dictSet : List (κ × α) → κ → α → List (κ × α)
  | [], k, v => [(k, v)]
  | p :: rest, k, v => if p.1 = k then (k, v) :: rest else p :: dictSet rest k v

/-- Python `del d[k]` (the key is present at every call site modelled here,
so the KeyError of deleting an absent key never arises). -/
def dictErase (m : List (κ × α)) (k : κ) : List (κ × α) :=
  m.filter (fun p => decide (p.1 ≠ k))

/-- In-place mutation of the object stored under a key (Python
`d[k].field = ...`); a no-op when the key is absent. -/
def dictModify (m : List (κ × α)) (k : κ) (f : α → α) : List (κ × α) :=
  m.map (fun p => if p.1 = k then (p.1, f p.2) else p)

theorem dictGet?_dictSet_self (m : List (κ × α)) (k : κ) (v : α) :
    dictGet? (dictSet m k v) k = some v := by
  induction m with
  | nil => simp [dictSet, dictGet?]
  | cons p rest ih =>
    by_cases h : p.1 = k
    · simp [dictSet, dictGet?, h]
    · simp [dictSet, dictGet?, h, ih]

theorem dictGet?_dictSet_ne (m : List (κ × α)) (k k' : κ) (v : α) (h : k' ≠ k) :
    dictGet? (dictSet m k v) k' = dictGet? m k' := by
  induction m with
  | nil => simp [dictSet, dictGet?, Ne.symm h]
  | cons p rest ih =>
    by_cases hp : p.1 = k
    · subst hp
      simp [dictSet, dictGet?, Ne.symm h]
    · by_cases hp' : p.1 = k'
      · simp [dictSet, dictGet?, hp, hp', h]
      · simp [dictSet, dictGet?, hp, hp', ih]

theorem dictGet?_dictModify_self (m : List (κ × α)) (k : κ) (f : α → α) :
    dictGet? (dictModify m k f) k = (dictGet? m k).map f := by
  induction m with
  | nil => simp [dictModify, dictGet?]
  | cons p rest ih =>
    by_cases h : p.1 = k
    · simp [dictModify, dictGet?, h]
    · have hstep : dictModify (p :: rest) k f = p :: dictModify rest k f := by
        simp [dictModify, h]
      rw [hstep]
      simp [dictGet?, h, ih]

theorem dictSet_of_not_mem (m : List (κ × α)) (k : κ) (v : α)
    (h : dictGet? m k = none) : dictSet m k v = m ++ [(k, v)] := by
  induction m with
  | nil => simp [dictSet]
  | cons p rest ih =>
    by_cases hp : p.1 = k
    · simp [dictGet?, hp] at h
    · simp [dictGet?, hp] at h
      simp [dictSet, hp, ih h]

theorem dictGet?_eq_none_of_not_mem_keys (m : List (κ × α)) (k : κ)
    (h : k ∉ m.map Prod.fst) : dictGet? m k = none := by
  induction m with
  | nil => rfl
  | cons p rest ih =>
    simp only [List.map_cons, List.mem_cons] at h
    push_neg at h
    simp [dictGet?, Ne.symm h.1, ih h.2]

theorem map_fst_dictSet_fresh (m : List (κ × α)) (k : κ) (v : α)
    (h : k ∉ m.map Prod.fst) :
    (dictSet m k v).map Prod.fst = m.map Prod.fst ++ [k] := by
  rw [dictSet_of_not_mem m k v (dictGet?_eq_none_of_not_mem_keys m k h)]
  simp

theorem foldl_dictErase_eq_filter (es : List κ) (m : List (κ × α)) :
    es.foldl dictErase m = m.filter (fun p => decide (p.1 ∉ es)) := by
  induction es generalizing m with
  | nil => simp
  | cons e rest ih =>
    rw [List.foldl_cons, ih, dictErase, List.filter_filter]
    apply List.filter_congr
    intro p _
    simp only [List.mem_cons, decide_not]
    by_cases h1 : p.1 = e <;> by_cases h2 : p.1 ∈ rest <;> simp [h1, h2]

end Dict

theorem map_fst_filter_pred {κ α : Type} (m : List (κ × α)) (q : κ → Bool) :
    (m.filter (fun p => q p.1)).map Prod.fst = (m.map Prod.fst).filter q := by
  induction m with
  | nil => rfl
  | cons p rest ih =>
    cases hq : q p.1
    · simp [List.filter_cons, hq, ih]
    · simp [List.filter_cons, hq, ih]

/-- A list whose members all lie in its `take t` part filters (by
non-membership in that part) down to its `drop t` part, provided it has no
duplicates. -/
theorem filter_not_mem_take {α : Type} (l : List α) [DecidableEq α] (t : ℕ)
    (hnd : l.Nodup) :
    l.filter (fun x => decide (x ∉ l.take t)) = l.drop t := by
  have hsplit :=
    List.filter_append (p := fun x => decide (x ∉ l.take t)) (l.take t) (l.drop t)
  rw [List.take_append_drop t l] at hsplit
  have h1 : (l.take t).filter (fun x => decide (x ∉ l.take t)) = [] := by
    rw [List.filter_eq_nil_iff]
    intro a ha
    simp [ha]
  have hdisj : List.Disjoint (l.take t) (l.drop t) :=
    List.disjoint_take_drop hnd le_rfl
  have h2 : (l.drop t).filter (fun x => decide (x ∉ l.take t)) = l.drop t := by
    rw [List.filter_eq_self]
    intro a ha
    simp only [decide_eq_true_eq]
    exact fun hmem => hdisj hmem ha
  rw [hsplit, h1, h2, List.nil_append]

/-! ## ShowContainer (tvdb_api.py lines 59-78)

A dict of resident shows plus an insertion ledger `stack` and the timestamp
`lastgc` of the last eviction sweep.  `setitem` is `__setitem__`: append the
key to the ledger; if more than 20 time-units have passed since the last
sweep, delete every entry outside the 100 most recently inserted, truncate
the ledger and stamp the sweep; finally store the binding.  Reads are the
inherited plain dict `__getitem__` (no override), i.e. `dictGet?` on
`store`. -/

structure ShowContainer (κ V : Type) where
  store : List (κ × V)
  stack : List κ
  lastgc : Nat
deriving DecidableEq, Repr

/-- `ShowContainer.__init__`: empty dict, empty stack, `_lastgc` stamped with
the construction instant. -/
def ShowContainer.init (κ V : Type) (t0 : Nat) : ShowContainer κ V :=
  ⟨[], [], t0⟩

/-- `ShowContainer.__setitem__(key, value)` at wall-clock instant `now`. -/
def ShowContainer.setitem {κ V : Type} [DecidableEq κ]
    (c : ShowContainer κ V) (now : Nat) (key : κ) (value : V) :
    ShowContainer κ V :=
  let stack1 := c.stack ++ [key]
  if 20 < now - c.lastgc then
    let evict := stack1.take (stack1.length - 100)
    { store := dictSet (evict.foldl dictErase c.store) key value
      stack := stack1.drop (stack1.length - 100)
      lastgc := now }
  else
    { store := dictSet c.store key value
      stack := stack1
      lastgc := c.lastgc }

/-- A run of `__setitem__` calls, each event being `(now, key, value)`. -/
def ShowContainer.run {κ V : Type} [DecidableEq κ]
    (c : ShowContainer κ V) (evs : List (Nat × κ × V)) : ShowContainer κ V :=
  evs.foldl (fun c e => c.setitem e.1 e.2.1 e.2.2) c

theorem ShowContainer.run_append {κ V : Type} [DecidableEq κ]
    (c : ShowContainer κ V) (evs : List (Nat × κ × V)) (e : Nat × κ × V) :
    c.run (evs ++ [e]) = (c.run evs).setitem e.1 e.2.1 e.2.2 := by
  simp [ShowContainer.run, List.foldl_append]

/-- The key just written is always resident afterwards (the sweep happens
before the store, and never touches the newest ledger entry). -/
theorem ShowContainer.setitem_get_self {κ V : Type} [DecidableEq κ]
    (c : ShowContainer κ V) (now : Nat) (key : κ) (value : V) :
    dictGet? (c.setitem now key value).store key = some value := by
  by_cases h : 20 < now - c.lastgc
  · simp [ShowContainer.setitem, h, dictGet?_dictSet_self]
  · simp [ShowContainer.setitem, h, dictGet?_dictSet_self]

theorem ShowContainer.setitem_of_sweep {κ V : Type} [DecidableEq κ]
    (c : ShowContainer κ V) (now : Nat) (key : κ) (value : V)
    (h : 20 < now - c.lastgc) :
    c.setitem now key value =
      { store := dictSet
          (((c.stack ++ [key]).take ((c.stack ++ [key]).length - 100)).foldl
            dictErase c.store) key value
        stack := (c.stack ++ [key]).drop ((c.stack ++ [key]).length - 100)
        lastgc := now } := by
  simp [ShowContainer.setitem, h]

theorem ShowContainer.setitem_of_no_sweep {κ V : Type} [DecidableEq κ]
    (c : ShowContainer κ V) (now : Nat) (key : κ) (value : V)
    (h : ¬ 20 < now - c.lastgc) :
    c.setitem now key value =
      { store := dictSet c.store key value
        stack := c.stack ++ [key]
        lastgc := c.lastgc } := by
  simp [ShowContainer.setitem, h]

/-- One `__setitem__` call preserves the agreement between stored keys and
the insertion ledger, provided the new key is fresh and the ledger is
duplicate-free. -/
theorem ShowContainer.setitem_store_keys {κ V : Type} [DecidableEq κ]
    (c : ShowContainer κ V) (now : Nat) (key : κ) (value : V)
    (hfst : c.store.map Prod.fst = c.stack)
    (hnd : c.stack.Nodup) (hk : key ∉ c.stack) :
    (c.setitem now key value).store.map Prod.fst =
      (c.setitem now key value).stack := by
  by_cases h : 20 < now - c.lastgc
  · rw [ShowContainer.setitem_of_sweep c now key value h]
    simp only
    set t := (c.stack ++ [key]).length - 100 with ht
    have ht' : t ≤ c.stack.length := by
      simp only [ht, List.length_append, List.length_singleton]
      omega
    have htake : (c.stack ++ [key]).take t = c.stack.take t := by
      rw [List.take_append_eq_append_take]
      have : t - c.stack.length = 0 := by omega
      simp [this]
    have hdrop : (c.stack ++ [key]).drop t = c.stack.drop t ++ [key] := by
      rw [List.drop_append_eq_append_drop]
      have : t - c.stack.length = 0 := by omega
      simp [this]
    rw [htake, hdrop, foldl_dictErase_eq_filter]
    have hfilter :
        (c.store.filter (fun p => decide (p.1 ∉ c.stack.take t))).map Prod.fst
          = c.stack.drop t := by
      have hq := map_fst_filter_pred c.store
        (fun k => decide (k ∉ c.stack.take t))
      rw [hfst] at hq
      rw [hq, filter_not_mem_take c.stack t hnd]
    have hfresh : key ∉
        (c.store.filter (fun p => decide (p.1 ∉ c.stack.take t))).map Prod.fst := by
      rw [hfilter]
      intro hmem
      exact hk (List.mem_of_mem_drop hmem)
    rw [map_fst_dictSet_fresh _ _ _ hfresh, hfilter]
  · rw [ShowContainer.setitem_of_no_sweep c now key value h]
    simp only
    have hfresh : key ∉ c.store.map Prod.fst := by rw [hfst]; exact hk
    rw [map_fst_dictSet_fresh _ _ _ hfresh, hfst]

/-- Invariant of a run of distinct-key insertions: the ledger is a suffix of
the full insertion sequence holding at least the 100 newest keys (all of
them while fewer than 100 exist), and the stored keys are exactly the
ledger. -/
theorem ShowContainer.run_invariant {κ V : Type} [DecidableEq κ]
    (t0 : Nat) (evs : List (Nat × κ × V))
    (h : (evs.map (fun e => e.2.1)).Nodup) :
    ∃ d, d + min (evs.length) 100 ≤ evs.length ∧
      ((ShowContainer.init κ V t0).run evs).stack
        = (evs.map (fun e => e.2.1)).drop d ∧
      ((ShowContainer.init κ V t0).run evs).store.map Prod.fst
        = ((ShowContainer.init κ V t0).run evs).stack := by
  induction evs using List.reverseRecOn with
  | nil => exact ⟨0, by simp [ShowContainer.run, ShowContainer.init]⟩
  | append_singleton evs e ih =>
    have hK : (evs.map (fun e => e.2.1)).Nodup := by
      simp only [List.map_append, List.nodup_append] at h
      exact h.1
    have hknotmem : e.2.1 ∉ evs.map (fun e => e.2.1) := by
      simp only [List.map_append, List.nodup_append] at h
      intro hmem
      exact h.2.2 hmem (by simp)
    obtain ⟨d, hd, hstack, hstore⟩ := ih hK
    set c := (ShowContainer.init κ V t0).run evs with hc
    set K := evs.map (fun e => e.2.1) with hKdef
    have hKlen : K.length = evs.length := by simp [hKdef]
    have hdK : d ≤ K.length := by omega
    have hstacklen : c.stack.length = K.length - d := by
      rw [hstack, List.length_drop]
    have hkstack : e.2.1 ∉ c.stack := by
      rw [hstack]
      intro hmem
      exact hknotmem (List.mem_of_mem_drop hmem)
    have hndstack : c.stack.Nodup := by
      rw [hstack]
      exact hK.sublist (List.drop_sublist d K)
    rw [ShowContainer.run_append]
    have hstorekeys := ShowContainer.setitem_store_keys c e.1 e.2.1 e.2.2
      hstore hndstack hkstack
    have hdropstack : c.stack ++ [e.2.1] = (K ++ [e.2.1]).drop d := by
      rw [hstack, List.drop_append_eq_append_drop]
      have h0 : d - K.length = 0 := by omega
      simp [h0]
    have hmapKe : (evs ++ [e]).map (fun e => e.2.1) = K ++ [e.2.1] := by
      simp [hKdef]
    have hlenKe : (evs ++ [e]).length = evs.length + 1 := by simp
    by_cases hsw : 20 < e.1 - c.lastgc
    · by_cases hL : 100 ≤ K.length + 1 - d
      · refine ⟨K.length + 1 - 100, ?_, ?_, hstorekeys⟩
        · rw [hlenKe]
          omega
        · rw [ShowContainer.setitem_of_sweep c e.1 e.2.1 e.2.2 hsw]
          simp only
          have hlen1 : (c.stack ++ [e.2.1]).length - 100
              = K.length + 1 - 100 - d := by
            simp only [List.length_append, List.length_singleton, hstacklen]
            omega
          rw [hlen1, hdropstack, List.drop_drop, hmapKe]
          have hidx : d + (K.length + 1 - 100 - d) = K.length + 1 - 100 := by
            omega
          rw [hidx]
      · refine ⟨d, ?_, ?_, hstorekeys⟩
        · rw [hlenKe]
          omega
        · rw [ShowContainer.setitem_of_sweep c e.1 e.2.1 e.2.2 hsw]
          simp only
          have hlen0 : (c.stack ++ [e.2.1]).length - 100 = 0 := by
            simp only [List.length_append, List.length_singleton, hstacklen]
            omega
          rw [hlen0, List.drop_zero, hdropstack, hmapKe]
    · refine ⟨d, ?_, ?_, hstorekeys⟩
      · rw [hlenKe]
        omega
      · rw [ShowContainer.setitem_of_no_sweep c e.1 e.2.1 e.2.2 hsw]
        simp only
        rw [hdropstack, hmapKe]

/-- C1: inserting 150 distinct identifiers into the cache container, with
the final insertion happening after the 20-time-unit debounce window has
elapsed since the last sweep, leaves exactly the 100 most-recently-inserted
identifiers resident (in insertion order) — at most 100 entries; and an
insertion within the debounce window runs no sweep at all (the store only
grows, so it can momentarily exceed 100 entries between sweeps). -/
theorem c1_cache_eviction (t0 : Nat) (pre : List (Nat × Nat × Unit))
    (t k : Nat)
    (hnodup : (pre.map (fun e => e.2.1) ++ [k]).Nodup)
    (hlen : pre.length = 149)
    (hsweep : 20 < t - ((ShowContainer.init Nat Unit t0).run pre).lastgc) :
    (((ShowContainer.init Nat Unit t0).run (pre ++ [(t, k, ())])).store.map
          Prod.fst
        = (pre.map (fun e => e.2.1) ++ [k]).drop 50
      ∧ ((ShowContainer.init Nat Unit t0).run
          (pre ++ [(t, k, ())])).store.length ≤ 100)
      ∧ ∀ (c : ShowContainer Nat Unit) (t' k' : Nat) (v : Unit),
          ¬ 20 < t' - c.lastgc →
          (c.setitem t' k' v).store = dictSet c.store k' v
            ∧ (c.setitem t' k' v).lastgc = c.lastgc := by
  have hKnodup : (pre.map (fun e => e.2.1)).Nodup :=
    (List.nodup_append.mp hnodup).1
  have hknotmem : k ∉ pre.map (fun e => e.2.1) := by
    have h2 := (List.nodup_append.mp hnodup).2.2
    intro hmem
    exact h2 hmem (by simp)
  obtain ⟨d, hd, hstack, hstore⟩ := ShowContainer.run_invariant t0 pre hKnodup
  set c := (ShowContainer.init Nat Unit t0).run pre with hc
  set K := pre.map (fun e => e.2.1) with hKdef
  have hKlen : K.length = 149 := by simp [hKdef, hlen]
  have hdle : d ≤ 49 := by omega
  have hstacklen : c.stack.length = K.length - d := by
    rw [hstack, List.length_drop]
  have hkstack : k ∉ c.stack := by
    rw [hstack]
    intro hmem
    exact hknotmem (List.mem_of_mem_drop hmem)
  have hndstack : c.stack.Nodup := by
    rw [hstack]
    exact hKnodup.sublist (List.drop_sublist d K)
  have hdropstack : c.stack ++ [k] = (K ++ [k]).drop d := by
    rw [hstack, List.drop_append_eq_append_drop]
    have h0 : d - K.length = 0 := by omega
    simp [h0]
  have hrun : (ShowContainer.init Nat Unit t0).run (pre ++ [(t, k, ())])
      = c.setitem t k () := by
    rw [ShowContainer.run_append]
  have hstorekeys := ShowContainer.setitem_store_keys c t k ()
    hstore hndstack hkstack
  have hstackfinal : (c.setitem t k ()).stack = (K ++ [k]).drop 50 := by
    rw [ShowContainer.setitem_of_sweep c t k () hsweep]
    simp only
    have hlen1 : (c.stack ++ [k]).length - 100 = 50 - d := by
      simp only [List.length_append, List.length_singleton, hstacklen]
      omega
    rw [hlen1, hdropstack, List.drop_drop]
    have hidx : d + (50 - d) = 50 := by omega
    rw [hidx]
  refine ⟨⟨?_, ?_⟩, ?_⟩
  · rw [hrun, hstorekeys, hstackfinal]
  · rw [hrun]
    have hl : (c.setitem t k ()).store.length
        = ((c.setitem t k ()).store.map Prod.fst).length :=
      (List.length_map _ _).symm
    rw [hl, hstorekeys, hstackfinal, List.length_drop]
    simp [hKlen]
  · intro c' t' k' v hno
    rw [ShowContainer.setitem_of_no_sweep c' t' k' v hno]
    exact ⟨rfl, rfl⟩

/-- Concrete 150-insertion run for the C1 witness: 149 insertions at instant
0 (inside the debounce window, no sweep), then one at instant 21. -/
def c1pre : List (Nat × Nat × Unit) :=
  (List.range 149).map (fun i => (0, i, ()))

set_option maxRecDepth 100000 in
theorem c1_cache_eviction_witness :
    (c1pre.map (fun e : Nat × Nat × Unit => e.2.1) ++ [149]).Nodup ∧
    ((((ShowContainer.init Nat Unit 0).run
          (c1pre ++ [(21, 149, ())])).store.map Prod.fst
        = (c1pre.map (fun e : Nat × Nat × Unit => e.2.1) ++ [149]).drop 50
      ∧ ((ShowContainer.init Nat Unit 0).run
          (c1pre ++ [(21, 149, ())])).store.length ≤ 100)
      ∧ ∀ (c : ShowContainer Nat Unit) (t' k' : Nat) (v : Unit),
          ¬ 20 < t' - c.lastgc →
          (c.setitem t' k' v).store = dictSet c.store k' v
            ∧ (c.setitem t' k' v).lastgc = c.lastgc) :=
  ⟨by decide, c1_cache_eviction 0 c1pre 21 149 (by decide) (by decide)
    (by decide)⟩

/-! ## The Show → Season → Episode hierarchy (tvdb_api.py lines 81-276)

Each class subclasses `dict`; the dict part becomes an insertion-ordered
association list.  `Show` additionally holds the metadata mapping
`self.data`.  The non-owning back-references `Season.show` and
`Episode.season` exist for diagnostics only and carry no behaviour used by
any claim, so they are not modelled. -/

structure Episode where
  fields : List (String × JVal)
deriving DecidableEq, Repr

structure Season where
  eps : List (PyKey × Episode)
deriving DecidableEq, Repr

structure Show where
  seasons : List (PyKey × Season)
  data : List (String × JVal)
deriving DecidableEq, Repr

/-- Python `str.isdigit()`: nonempty and every character a digit. -/
def pyStrIsDigit (s : String) : Bool :=
  !s.isEmpty && s.toList.all Char.isDigit

/-- The test on line 104: `isinstance(key, int) or key.isdigit()`. -/
def PyKey.isIntLike : PyKey → Bool
  | .int _ => true
  | .str s => pyStrIsDigit s

/-- `Show.__getitem__` returns either a `Season` (dict part hit) or a
metadata value (`self.data` hit), so its success type is a sum. -/
inductive ShowItem : Type where
  | season (se : Season) : ShowItem
  | value (v : JVal) : ShowItem
deriving DecidableEq, Repr

/-- `Show.__getitem__` (lines 94-114): the season dict is consulted first;
then `self.data` (whose keys are always strings, so an int key can never
hit it); then an integer-like key raises tvdb_seasonnotfound and any other
key raises tvdb_attributenotfound. -/
def Show.getitem (sh : Show) (key : PyKey) : Except TvdbErr ShowItem :=
  match dictGet? sh.seasons key with
  | some se => .ok (.season se)
  | none =>
    match (match key with
           | .str s => dictGet? sh.data s
           | .int _ => none) with
    | some v => .ok (.value v)
    | none =>
      if key.isIntLike then .error .seasonNotFound
      else .error .attributeNotFound

/-- `Season.__getitem__` (lines 195-199). -/
def Season.getitem (se : Season) (k : PyKey) : Except TvdbErr Episode :=
  match dictGet? se.eps k with
  | some e => .ok e
  | none => .error .episodeNotFound

/-- `Episode.__getitem__` (lines 237-241): dict KeyError is re-raised as
tvdb_attributenotfound. -/
def Episode.getitem (e : Episode) (k : String) : Except TvdbErr JVal :=
  match dictGet? e.fields k with
  | some v => .ok v
  | none => .error .attributeNotFound

/-- Python `text_type(value)` of a JSON value. -/
def JVal.pyStr : JVal → String
  | .null => "None"
  | .int n => toString n
  | .str s => s

/-- Python `str.lower()` (ASCII range, which covers every string any claim
touches). -/
def pyLower (s : String) : String :=
  ⟨s.data.map Char.toLower⟩

/-- Python `hay.find(needle) > -1`: substring containment. -/
def strContains (hay needle : String) : Bool :=
  hay.toList.tails.any (fun t => needle.toList.isPrefixOf t)

/-- `Episode.search(term, key)` (lines 243-276): no term is a TypeError;
otherwise the episode returns itself on the first field whose stringified,
lower-cased value contains the lower-cased term (and whose name equals
`key` when a key is given), and implicitly returns None otherwise.  Which
field matches first does not affect the result, so the scan is an `any`. -/
def Episode.search (e : Episode) (term key : Option String) :
    Except TvdbErr (Option Episode) :=
  match term with
  | none => .error .typeErr
  | some t =>
    let tl := pyLower t
    if e.fields.any (fun p =>
        (match key with
         | some k => decide (p.1 = k)
         | none => true)
          && strContains (pyLower p.2.pyStr) tl)
    then .ok (some e) else .ok none

/-- The loop of `Season.search` (lines 212-219): collect, in episode
enumeration (insertion) order, each episode that returns itself. -/
def seasonSearchGo (term key : Option String) :
    List (PyKey × Episode) → Except TvdbErr (List Episode)
  | [] => .ok []
  | pe :: rest =>
    match pe.2.search term key with
    | .error er => .error er
    | .ok none => seasonSearchGo term key rest
    | .ok (some ep) => (seasonSearchGo term key rest).map (fun l => ep :: l)

def Season.search (se : Season) (term key : Option String) :
    Except TvdbErr (List Episode) :=
  seasonSearchGo term key se.eps

/-- The loop of `Show.search` (lines 175-181): extend with each season's
results in season enumeration (insertion) order.  (The `len != 0` guard
before `extend` is behaviourally the identity and is dropped.) -/
def showSearchGo (term key : Option String) :
    List (PyKey × Season) → Except TvdbErr (List Episode)
  | [] => .ok []
  | ps :: rest =>
    match ps.2.search term key with
    | .error er => .error er
    | .ok rs => (showSearchGo term key rest).map (fun l => rs ++ l)

def Show.search (sh : Show) (term key : Option String) :
    Except TvdbErr (List Episode) :=
  showSearchGo term key sh.seasons

/-! ## Population primitives (tvdb_api.py lines 566-594 and 772-804) -/

def emptyShow : Show := ⟨[], []⟩

/-- `Tvdb._setShowData` (lines 589-594): ensure the Show exists in the
cache container, then set the metadata field in place. -/
def Tvdb.setShowData (now : Nat) (shows : ShowContainer Nat Show)
    (sid : Nat) (key : String) (value : JVal) : ShowContainer Nat Show :=
  let shows1 := if (dictGet? shows.store sid).isSome then shows
                else shows.setitem now sid emptyShow
  { shows1 with store := dictModify shows1.store sid (fun sh =>
      { sh with data := dictSet sh.data key value }) }

/-- `Tvdb._setItem` (lines 566-587): ensure Show, Season and Episode nodes
exist along the path (creating each only when absent, through the cache
container's `__setitem__` for the Show), then set the attribute on the
episode in place. -/
def Tvdb.setItem (now : Nat) (shows : ShowContainer Nat Show) (sid : Nat)
    (seas ep : PyKey) (attrib : String) (value : JVal) :
    ShowContainer Nat Show :=
  let shows1 := if (dictGet? shows.store sid).isSome then shows
                else shows.setitem now sid emptyShow
  { shows1 with store := dictModify shows1.store sid (fun sh =>
      let sh1 := if (dictGet? sh.seasons seas).isSome then sh
                 else { sh with seasons := dictSet sh.seasons seas ⟨[]⟩ }
      { sh1 with seasons := dictModify sh1.seasons seas (fun se =>
          let se1 := if (dictGet? se.eps ep).isSome then se
                     else { se with eps := dictSet se.eps ep ⟨[]⟩ }
          { se1 with eps := dictModify se1.eps ep (fun e =>
              { e with fields := dictSet e.fields attrib value }) }) }) }

/-- The consumer read path for one `(sid, season, episode)` tuple:
`t[sid][seas][ep]` through the plain dict reads of the container, the
Show's season dict and the Season's episode dict. -/
def getRecord (shows : ShowContainer Nat Show) (sid : Nat)
    (seas ep : PyKey) : Option Episode :=
  (dictGet? shows.store sid).bind fun sh =>
    (dictGet? sh.seasons seas).bind fun se => dictGet? se.eps ep

/-- Python `d.get(k)`: absent keys read as None. -/
def jGet (r : List (String × JVal)) (k : String) : JVal :=
  (dictGet? r k).getD .null

/-- A non-null JSON value used as a dict key (season / episode numbers in
`_setItem`).  The null arm is unreachable: callers skip null numbers. -/
def JVal.toKey : JVal → PyKey
  | .null => .str "None"
  | .int n => .int n
  | .str s => .str s

/-- `config['url_artworkPrefix'] % value` (base_url + "/banners/%s"). -/
def bannerUrlOf (v : JVal) : String :=
  "http://thetvdb.com/banners/" ++ v.pyStr

/-- One iteration of the episode loop of `Tvdb._getShowData`
(lines 772-804): under DVD order, use the dvd season/episode numbers only
when both are non-null, else fall back to the raw (KeyError-raising) reads
of `airedSeason` / `airedEpisodeNumber`.  When either chosen number is
null the code enters its skip path (lines 785-792): it logs a warning,
but the next debug call evaluates `cur_ep.getchildren()` — `cur_ep` is a
plain dict from the JSON response, which has no such method — so a raw
AttributeError is raised before the `continue` is reached; the branch is
therefore an error, not a skip.  Otherwise every field of the item is
stored (rewriting a non-null `filename` to an artwork URL) via
`_setItem`. -/
def Tvdb.processEpisode (dvdorder : Bool) (now : Nat) (sid : Nat)
    (shows : ShowContainer Nat Show) (cur_ep : List (String × JVal)) :
    Except TvdbErr (ShowContainer Nat Show) :=
  let use_dvd := dvdorder
    && decide (jGet cur_ep "dvdSeason" ≠ JVal.null)
    && decide (jGet cur_ep "dvdEpisodeNumber" ≠ JVal.null)
  let pair : Except TvdbErr (JVal × JVal) :=
    if use_dvd then
      .ok (jGet cur_ep "dvdSeason", jGet cur_ep "dvdEpisodeNumber")
    else
      match dictGet? cur_ep "airedSeason" with
      | none => .error .keyErr
      | some s =>
        match dictGet? cur_ep "airedEpisodeNumber" with
        | none => .error .keyErr
        | some e => .ok (s, e)
  match pair with
  | .error er => .error er
  | .ok (s, e) =>
    if s = JVal.null ∨ e = JVal.null then
      .error .pyAttrErr
    else
      .ok (cur_ep.foldl (fun acc p =>
        let value := if p.1 = "filename" ∧ p.2 ≠ JVal.null
          then JVal.str (bannerUrlOf p.2) else p.2
        Tvdb.setItem now acc sid s.toKey e.toKey p.1 value) shows)

/-- The whole episode loop of `Tvdb._getShowData`: a left fold of
`processEpisode` over the fetched sequence, aborting on a raised error. -/
def Tvdb.processEpisodes (dvdorder : Bool) (now : Nat) (sid : Nat) :
    ShowContainer Nat Show → List (List (String × JVal)) →
    Except TvdbErr (ShowContainer Nat Show)
  | shows, [] => .ok shows
  | shows, cur_ep :: rest =>
    match Tvdb.processEpisode dvdorder now sid shows cur_ep with
    | .error er => .error er
    | .ok shows1 => Tvdb.processEpisodes dvdorder now sid shows1 rest

/-! ## The consumer-facing session (tvdb_api.py lines 806-837)

`Tvdb.__getitem__` and `Tvdb._nameToSid` over a session state holding the
cache container and the correction map.  The external collaborators of
spec §6 are an oracle: `searchId` is `_getSeries` (search plus UI
selection; `none` models zero search results, i.e. tvdb_shownotfound), and
`showData` is the content `_getShowData` would store for an id.  The body
of `_getShowData` is abstracted to: append the id to `fetchLog` (one entry
per invocation of the fetch collaborator) and store the fetched content —
through the container's `__setitem__` when the id is absent, in place when
it is already resident (`_setShowData` inserts a fresh `Show()` only when
`sid not in self.shows`). -/

structure Oracle where
  searchId : String → Option Nat
  showData : Nat → Show

structure Session where
  shows : ShowContainer Nat Show
  corrections : List (String × Nat)
  searchLog : List String
  fetchLog : List Nat
deriving Repr

def Session.getShowData (o : Oracle) (now : Nat) (s : Session) (sid : Nat) :
    Session :=
  { s with
    fetchLog := s.fetchLog ++ [sid]
    shows :=
      if (dictGet? s.shows.store sid).isSome then
        { s.shows with
          store := dictModify s.shows.store sid (fun _ => o.showData sid) }
      else
        s.shows.setitem now sid (o.showData sid) }

/-- `Tvdb._nameToSid` (lines 806-823): a name found in the correction map
returns its id with no collaborator interaction at all; otherwise search
(and disambiguate), record the correction, fetch the show data, and return
the id. -/
def Session.nameToSid (o : Oracle) (now : Nat) (s : Session)
    (name : String) : Except TvdbErr (Session × Nat) :=
  match dictGet? s.corrections name with
  | some sid => .ok (s, sid)
  | none =>
    let s1 : Session := { s with searchLog := s.searchLog ++ [name] }
    match o.searchId name with
    | none => .error .showNotFound
    | some sid =>
      let s2 : Session :=
        { s1 with corrections := dictSet s1.corrections name sid }
      .ok (s2.getShowData o now sid, sid)

/-- `Tvdb.__getitem__` with an int key (lines 829-833): fetch only when the
id is absent, then a plain dict read (KeyError when still absent). -/
def Session.getitemById (o : Oracle) (now : Nat) (s : Session) (sid : Nat) :
    Except TvdbErr (Session × Show) :=
  let s1 := if (dictGet? s.shows.store sid).isSome then s
            else s.getShowData o now sid
  match dictGet? s1.shows.store sid with
  | some sh => .ok (s1, sh)
  | none => .error .keyErr

/-- `Tvdb.__getitem__` with a name key (lines 835-837): resolve the name,
then a plain dict read of `self.shows[sid]` (KeyError when absent). -/
def Session.getitemByName (o : Oracle) (now : Nat) (s : Session)
    (name : String) : Except TvdbErr (Session × Show) :=
  match s.nameToSid o now name with
  | .error er => .error er
  | .ok (s1, sid) =>
    match dictGet? s1.shows.store sid with
    | some sh => .ok (s1, sh)
    | none => .error .keyErr

/-! ## C4, C5, C10: session-level behaviour -/

/-- Projection used to observe how often the fetch collaborator ran. -/
def fetchLogOf : Except TvdbErr (Session × Show) → List Nat
  | .ok (s, _) => s.fetchLog
  | .error _ => []

def c4oracle : Oracle := ⟨fun _ => some 42, fun _ => emptyShow⟩

/-- A session in which identifier 42 is already resident and no name has
been resolved yet. -/
def c4s0 : Session := ⟨⟨[(42, emptyShow)], [42], 0⟩, [], [], []⟩

/-- C4 counterexample: identifier 42 is resident, yet a top-level lookup by
a fresh name that resolves to 42 invokes the fetch collaborator again for
42 (`_nameToSid` always fetches on a correction-map miss, without checking
residency) — refuting the claim that no lookup by a name resolving to a
resident identifier re-fetches it. -/
theorem c4_refetch_counterexample :
    dictGet? c4s0.shows.store 42 = some emptyShow
      ∧ c4s0.fetchLog = []
      ∧ fetchLogOf (c4s0.getitemByName c4oracle 0 "lost") = [42] :=
  ⟨rfl, rfl, rfl⟩

/-- C4 amended: a resident identifier is never re-fetched by a lookup by
that identifier, nor by a lookup by a name already recorded in the
correction map (the session, including its fetch log, is returned
unchanged); only a first lookup by an unrecorded name re-fetches. -/
theorem c4_resident_no_refetch (o : Oracle) (now : Nat) (s : Session)
    (sid : Nat) (sh : Show) (name : String)
    (h : dictGet? s.shows.store sid = some sh) :
    s.getitemById o now sid = .ok (s, sh)
      ∧ (dictGet? s.corrections name = some sid →
          s.getitemByName o now name = .ok (s, sh)) := by
  constructor
  · simp [Session.getitemById, h]
  · intro hc
    simp [Session.getitemByName, Session.nameToSid, hc, h]

def c4w_s : Session := ⟨⟨[(7, emptyShow)], [7], 0⟩, [("x", 7)], [], []⟩

theorem c4_resident_no_refetch_witness :
    dictGet? c4w_s.shows.store 7 = some emptyShow
      ∧ c4w_s.getitemById c4oracle 0 7 = .ok (c4w_s, emptyShow)
      ∧ c4w_s.getitemByName c4oracle 0 "x" = .ok (c4w_s, emptyShow) :=
  ⟨rfl, (c4_resident_no_refetch c4oracle 0 c4w_s 7 emptyShow "x" rfl).1,
    (c4_resident_no_refetch c4oracle 0 c4w_s 7 emptyShow "x" rfl).2 rfl⟩

/-- C5: resolving a new name invokes the search collaborator exactly once —
the first call appends the one search-log entry and records the
name-to-identifier correction, and a second call on the returned session
yields the same identifier and the session unchanged (so no further search
or fetch interaction). -/
theorem c5_resolver_memoization (o : Oracle) (now now2 : Nat)
    (s s1 : Session) (name : String) (sid sid1 : Nat)
    (h0 : dictGet? s.corrections name = none)
    (h1 : o.searchId name = some sid)
    (h2 : s.nameToSid o now name = .ok (s1, sid1)) :
    sid1 = sid ∧ s1.searchLog = s.searchLog ++ [name]
      ∧ s1.fetchLog = s.fetchLog ++ [sid]
      ∧ dictGet? s1.corrections name = some sid
      ∧ s1.nameToSid o now2 name = .ok (s1, sid) := by
  simp only [Session.nameToSid, h0, h1] at h2
  rw [Except.ok.injEq, Prod.mk.injEq] at h2
  obtain ⟨hs1, hsid⟩ := h2
  subst hs1
  subst hsid
  refine ⟨rfl, ?_, ?_, ?_, ?_⟩
  · simp [Session.getShowData]
  · simp [Session.getShowData]
  · simp [Session.getShowData, dictGet?_dictSet_self]
  · simp [Session.nameToSid, Session.getShowData, dictGet?_dictSet_self]

def c5oracle : Oracle := ⟨fun _ => some 42, fun _ => emptyShow⟩

def c5s0 : Session := ⟨ShowContainer.init Nat Show 0, [], [], []⟩

/-- The session after the first `resolve("scrubs")` on `c5s0`. -/
def c5s1 : Session :=
  ⟨⟨[(42, emptyShow)], [42], 0⟩, [("scrubs", 42)], ["scrubs"], [42]⟩

theorem c5_resolver_memoization_witness :
    c5s0.nameToSid c5oracle 0 "scrubs" = .ok (c5s1, 42)
      ∧ (42 = 42 ∧ c5s1.searchLog = c5s0.searchLog ++ ["scrubs"]
          ∧ c5s1.fetchLog = c5s0.fetchLog ++ [42]
          ∧ dictGet? c5s1.corrections "scrubs" = some 42
          ∧ c5s1.nameToSid c5oracle 9 "scrubs" = .ok (c5s1, 42)) :=
  ⟨rfl, c5_resolver_memoization c5oracle 0 9 c5s0 c5s1 "scrubs" 42 42
    rfl rfl rfl⟩

/-- C10: a name memoized in the correction map whose identifier has been
evicted from the cache resolves without any repopulation (the session is
returned untouched by `_nameToSid`) and the top-level lookup then fails
with the raw dict KeyError of `self.shows[sid]` — an error kind distinct
from all five typed error kinds. -/
theorem c10_stale_correction_keyerror (o : Oracle) (now : Nat)
    (s : Session) (name : String) (sid : Nat)
    (h1 : dictGet? s.corrections name = some sid)
    (h2 : dictGet? s.shows.store sid = none) :
    s.nameToSid o now name = .ok (s, sid)
      ∧ s.getitemByName o now name = .error .keyErr
      ∧ (TvdbErr.keyErr ≠ .showNotFound ∧ TvdbErr.keyErr ≠ .seasonNotFound
          ∧ TvdbErr.keyErr ≠ .episodeNotFound
          ∧ TvdbErr.keyErr ≠ .attributeNotFound
          ∧ TvdbErr.keyErr ≠ .fetchFailed) := by
  have hn : s.nameToSid o now name = .ok (s, sid) := by
    simp [Session.nameToSid, h1]
  refine ⟨hn, ?_, by decide⟩
  simp [Session.getitemByName, hn, h2]

def c10oracle : Oracle := ⟨fun _ => none, fun _ => emptyShow⟩

def c10s : Session := ⟨ShowContainer.init Nat Show 0, [("gone", 9)], [], []⟩

theorem c10_stale_correction_keyerror_witness :
    dictGet? c10s.corrections "gone" = some 9
      ∧ dictGet? c10s.shows.store 9 = none
      ∧ (c10s.nameToSid c10oracle 0 "gone" = .ok (c10s, 9)
          ∧ c10s.getitemByName c10oracle 0 "gone" = .error .keyErr
          ∧ (TvdbErr.keyErr ≠ .showNotFound
              ∧ TvdbErr.keyErr ≠ .seasonNotFound
              ∧ TvdbErr.keyErr ≠ .episodeNotFound
              ∧ TvdbErr.keyErr ≠ .attributeNotFound
              ∧ TvdbErr.keyErr ≠ .fetchFailed)) :=
  ⟨rfl, rfl, c10_stale_correction_keyerror c10oracle 0 c10s "gone" 9
    rfl rfl⟩

/-! ## C2: lookup fallback ordering on a Catalog-entry -/

/-- Modelled from the spec (§4.1 lookup semantics): a lookup that consults
the METADATA namespace first and the group namespace second, as the spec
words it.  Kept for comparison with `Show.getitem`, which the code orders
the other way around. -/
def Show.getitemMetadataFirst (sh : Show) (key : PyKey) :
    Except TvdbErr ShowItem :=
  match (match key with
         | .str s => dictGet? sh.data s
         | .int _ => none) with
  | some v => .ok (.value v)
  | none =>
    match dictGet? sh.seasons key with
    | some se => .ok (.season se)
    | none =>
      if key.isIntLike then .error .seasonNotFound
      else .error .attributeNotFound

/-- A container populated through the code's own write paths in which the
metadata and group namespaces do conflict: `_setItem` is fed the string
season number "seriesName" (season numbers come from fetched JSON and can
be strings), and `_setShowData` stores the metadata field "seriesName". -/
def c2shows : ShowContainer Nat Show :=
  Tvdb.setShowData 0
    (Tvdb.setItem 0 (ShowContainer.init Nat Show 0) 7
      (.str "seriesName") (.int 1) "episodeName" (.str "Pilot"))
    7 "seriesName" (.str "Scrubs")

def c2show : Show := (dictGet? c2shows.store 7).getD emptyShow

/-- C2 counterexample: on an entry whose group namespace holds the
non-integer-like key "seriesName", `Show.__getitem__` returns the GROUP
value, not the metadata value — so lookup is not tried against the
metadata namespace first, and the two namespaces can conflict. -/
theorem c2_metadata_first_counterexample :
    c2show.getitem (.str "seriesName")
        = .ok (.season ⟨[(PyKey.int 1, ⟨[("episodeName", JVal.str "Pilot")]⟩)]⟩)
      ∧ c2show.getitemMetadataFirst (.str "seriesName")
        = .ok (.value (JVal.str "Scrubs"))
      ∧ PyKey.isIntLike (.str "seriesName") = false
      ∧ c2show.getitem (.str "seriesName")
          ≠ c2show.getitemMetadataFirst (.str "seriesName") := by
  decide

theorem dictGet?_str_of_int_keys {α : Type} (m : List (PyKey × α))
    (s : String) (h : ∀ p ∈ m, ∃ n : Int, p.1 = PyKey.int n) :
    dictGet? m (.str s) = none := by
  induction m with
  | nil => rfl
  | cons p rest ih =>
    obtain ⟨n, hn⟩ := h p (by simp)
    have hne : p.1 ≠ PyKey.str s := by simp [hn]
    simp [dictGet?, hne, ih (fun q hq => h q (by simp [hq]))]

/-- C2 amended: the code consults the group (season) namespace first and
the metadata namespace second; since the group namespace of an ordinarily
populated entry is keyed by integer season numbers, a string key can never
hit it, so such lookups observably behave metadata-first: the metadata
value when the field exists, else (for a non-integer-like key)
tvdb_attributenotfound.  The namespaces conflict only when a fetched
season number is itself a non-numeric string (as in the counterexample). -/
theorem c2_group_namespace_first (sh : Show) (s : String)
    (hint : ∀ p ∈ sh.seasons, ∃ n : Int, p.1 = PyKey.int n) :
    (∀ v, dictGet? sh.data s = some v →
        sh.getitem (.str s) = .ok (.value v))
      ∧ (dictGet? sh.data s = none → pyStrIsDigit s = false →
          sh.getitem (.str s) = .error .attributeNotFound) := by
  have hmiss : dictGet? sh.seasons (.str s) = none :=
    dictGet?_str_of_int_keys sh.seasons s hint
  constructor
  · intro v hv
    simp [Show.getitem, hmiss, hv]
  · intro h1 h2
    simp [Show.getitem, hmiss, h1, PyKey.isIntLike, h2]

def c2w : Show := ⟨[(.int 1, ⟨[]⟩)], [("seriesName", .str "Scrubs")]⟩

theorem c2_group_namespace_first_witness :
    c2w.getitem (.str "seriesName") = .ok (.value (.str "Scrubs"))
      ∧ c2w.getitem (.str "overview") = .error .attributeNotFound := by
  have hint : ∀ p ∈ c2w.seasons, ∃ n : Int, p.1 = PyKey.int n := by
    intro p hp
    simp only [c2w, List.mem_singleton] at hp
    exact ⟨1, by rw [hp]⟩
  exact ⟨(c2_group_namespace_first c2w "seriesName" hint).1 _ rfl,
    (c2_group_namespace_first c2w "overview" hint).2 rfl rfl⟩

/-! ## C6: the three indexed-read miss error kinds -/

/-- C6: an integer-like key missing from both the season dict and metadata
raises tvdb_seasonnotfound on a Show; a non-integer key missing from both
raises tvdb_attributenotfound; a missing episode number raises
tvdb_episodenotfound on a Season; a missing field raises
tvdb_attributenotfound on an Episode; and the three kinds are pairwise
distinct. -/
theorem c6_error_kinds_distinct :
    (∀ (sh : Show) (key : PyKey),
        dictGet? sh.seasons key = none →
        (match key with
         | .str s => dictGet? sh.data s
         | .int _ => none) = none →
        (key.isIntLike = true → sh.getitem key = .error .seasonNotFound)
          ∧ (key.isIntLike = false →
              sh.getitem key = .error .attributeNotFound))
      ∧ (∀ (se : Season) (k : PyKey), dictGet? se.eps k = none →
          se.getitem k = .error .episodeNotFound)
      ∧ (∀ (e : Episode) (f : String), dictGet? e.fields f = none →
          e.getitem f = .error .attributeNotFound)
      ∧ (TvdbErr.seasonNotFound ≠ .episodeNotFound
          ∧ TvdbErr.seasonNotFound ≠ .attributeNotFound
          ∧ TvdbErr.episodeNotFound ≠ .attributeNotFound) := by
  refine ⟨?_, ?_, ?_, by decide⟩
  · intro sh key h1 h2
    constructor
    · intro hil
      simp [Show.getitem, h1, h2, hil]
    · intro hil
      simp [Show.getitem, h1, h2, hil]
  · intro se k h
    simp [Season.getitem, h]
  · intro e f h
    simp [Episode.getitem, h]

theorem c6_error_kinds_distinct_witness :
    (emptyShow.getitem (.int 3) = .error .seasonNotFound
        ∧ emptyShow.getitem (.str "overview") = .error .attributeNotFound)
      ∧ Season.getitem ⟨[]⟩ (.int 1) = .error .episodeNotFound
      ∧ Episode.getitem ⟨[]⟩ "episodeName" = .error .attributeNotFound :=
  ⟨⟨(c6_error_kinds_distinct.1 emptyShow (.int 3) rfl rfl).1 rfl,
      (c6_error_kinds_distinct.1 emptyShow (.str "overview") rfl rfl).2 rfl⟩,
    c6_error_kinds_distinct.2.1 ⟨[]⟩ (.int 1) rfl,
    c6_error_kinds_distinct.2.2.1 ⟨[]⟩ "episodeName" rfl⟩

/-! ## C9: search with no term -/

/-- An ordinary Catalog-entry holding metadata but no episodes. -/
def c9empty : Show := ⟨[], [("seriesName", JVal.str "Father Ted")]⟩

/-- C9 counterexample: on an entry with no records, `search` with no term
returns the empty result list instead of failing — the TypeError is only
raised inside `Episode.search`, which an empty iteration never reaches. -/
theorem c9_search_none_counterexample :
    c9empty.search none none = .ok []
      ∧ c9empty.search none none ≠ .error .typeErr := by
  decide

theorem showSearchGo_none (key : Option String) :
    ∀ l : List (PyKey × Season), (∃ p ∈ l, p.2.eps ≠ []) →
      showSearchGo none key l = .error .typeErr := by
  intro l
  induction l with
  | nil =>
    intro h
    simp at h
  | cons ps rest ih =>
    intro hne
    obtain ⟨p, hp, hpe⟩ := hne
    rcases List.mem_cons.mp hp with heq | hmem
    · subst heq
      cases hps : p.2.eps with
      | nil => exact absurd hps hpe
      | cons e es =>
        have herr : p.2.search none key = .error .typeErr := by
          simp [Season.search, hps, seasonSearchGo, Episode.search]
        simp [showSearchGo, herr]
    · cases hps : ps.2.eps with
      | nil =>
        have hok : ps.2.search none key = .ok [] := by
          simp [Season.search, hps, seasonSearchGo]
        have hrest := ih ⟨p, hmem, hpe⟩
        simp [showSearchGo, hok, hrest, Except.map]
      | cons e es =>
        have herr : ps.2.search none key = .error .typeErr := by
          simp [Season.search, hps, seasonSearchGo, Episode.search]
        simp [showSearchGo, herr]

/-- C9 amended: `search` with no term fails with the TypeError-equivalent
whenever the entry holds at least one record (the scan reaches an
`Episode.search` call); an entry with no records returns the empty list
instead. -/
theorem c9_search_none_typeerror (sh : Show) (key : Option String)
    (hne : ∃ p ∈ sh.seasons, p.2.eps ≠ []) :
    sh.search none key = .error .typeErr :=
  showSearchGo_none key sh.seasons hne

def c9w : Show :=
  ⟨[(.int 1, ⟨[(.int 1, ⟨[("episodeName", JVal.str "x")]⟩)]⟩)], []⟩

theorem c9_search_none_typeerror_witness :
    (∃ p ∈ c9w.seasons, p.2.eps ≠ [])
      ∧ c9w.search none none = .error .typeErr := by
  have hx : ∃ p ∈ c9w.seasons, p.2.eps ≠ [] :=
    ⟨(PyKey.int 1, ⟨[(PyKey.int 1, ⟨[("episodeName", JVal.str "x")]⟩)]⟩),
      by simp [c9w], by decide⟩
  exact ⟨hx, c9_search_none_typeerror c9w none hx⟩

/-! ## C3: DVD-ordering policy and items with missing numbers -/

/-- An episode item with no dvd numbers but complete aired numbers. -/
def c3ep : List (String × JVal) :=
  [("airedSeason", .int 1), ("airedEpisodeNumber", .int 2),
    ("episodeName", .str "Pilot")]

/-- The container produced by populating `c3ep` under DVD ordering. -/
def c3expected : ShowContainer Nat Show :=
  ⟨[(7, ⟨[(.int 1, ⟨[(.int 2, ⟨c3ep⟩)]⟩)], []⟩)], [7], 0⟩

/-- C3 counterexample: under the DVD-ordering policy an item lacking both
`dvdSeason` and `dvdEpisodeNumber` is NOT omitted — the code falls back to
the aired numbers and inserts the item at (airedSeason,
airedEpisodeNumber). -/
theorem c3_dvd_fallback_counterexample :
    jGet c3ep "dvdSeason" = JVal.null
      ∧ jGet c3ep "dvdEpisodeNumber" = JVal.null
      ∧ Tvdb.processEpisodes true 0 7 (ShowContainer.init Nat Show 0) [c3ep]
          = .ok c3expected
      ∧ getRecord c3expected 7 (.int 1) (.int 2) = some ⟨c3ep⟩ := by
  decide

/-- C3 amended: under DVD ordering an item lacking both dvd numbers is not
omitted — it falls back to the aired numbers and is inserted under them
(counterexample above); and when a chosen number IS null, the code's skip
path is itself broken: its debug logging calls `getchildren()` on the JSON
episode dict, raising a raw AttributeError that aborts population of this
item and of every subsequent item (the `continue` on line 792 is never
reached). -/
theorem c3_missing_numbers_abort (now : Nat) (shows : ShowContainer Nat Show)
    (sid : Nat) (cur_ep : List (String × JVal))
    (rest : List (List (String × JVal)))
    (h1 : jGet cur_ep "dvdSeason" = JVal.null)
    (h2 : jGet cur_ep "dvdEpisodeNumber" = JVal.null)
    (h3 : dictGet? cur_ep "airedSeason" = some JVal.null)
    (h4 : (dictGet? cur_ep "airedEpisodeNumber").isSome = true) :
    Tvdb.processEpisode true now sid shows cur_ep = .error .pyAttrErr
      ∧ Tvdb.processEpisodes true now sid shows (cur_ep :: rest)
          = .error .pyAttrErr := by
  obtain ⟨e, he⟩ := Option.isSome_iff_exists.mp h4
  have hone : Tvdb.processEpisode true now sid shows cur_ep
      = .error .pyAttrErr := by
    simp [Tvdb.processEpisode, h1, h2, h3, he]
  exact ⟨hone, by simp [Tvdb.processEpisodes, hone]⟩

/-- An episode item whose aired numbers are present but null. -/
def c3skip : List (String × JVal) :=
  [("airedSeason", .null), ("airedEpisodeNumber", .int 5),
    ("episodeName", .str "Unaired special")]

theorem c3_missing_numbers_abort_witness :
    jGet c3skip "dvdSeason" = JVal.null
      ∧ jGet c3skip "dvdEpisodeNumber" = JVal.null
      ∧ dictGet? c3skip "airedSeason" = some JVal.null
      ∧ (dictGet? c3skip "airedEpisodeNumber").isSome = true
      ∧ (Tvdb.processEpisode true 0 7 (ShowContainer.init Nat Show 0) c3skip
            = .error .pyAttrErr
          ∧ Tvdb.processEpisodes true 0 7 (ShowContainer.init Nat Show 0)
              (c3skip :: [c3ep])
            = .error .pyAttrErr) :=
  ⟨rfl, rfl, rfl, rfl,
    c3_missing_numbers_abort 0 (ShowContainer.init Nat Show 0) 7 c3skip
      [c3ep] rfl rfl rfl rfl⟩

/-! ## C7: search result multiplicity and order -/

/-- The enumeration of all records of a season list: group enumeration
(insertion) order, then record enumeration (insertion) order. -/
def episodesOfSeasons : List (PyKey × Season) → List Episode
  | [] => []
  | ps :: rest => ps.2.eps.map Prod.snd ++ episodesOfSeasons rest

def allEpisodes (sh : Show) : List Episode :=
  episodesOfSeasons sh.seasons

/-- The per-record match predicate of `Episode.search`. -/
def epMatches (e : Episode) (t : String) (key : Option String) : Bool :=
  e.fields.any (fun p =>
    (match key with
     | some k => decide (p.1 = k)
     | none => true)
      && strContains (pyLower p.2.pyStr) (pyLower t))

theorem episode_search_some (e : Episode) (t : String) (key : Option String) :
    e.search (some t) key
      = .ok (if epMatches e t key then some e else none) := by
  cases h : epMatches e t key with
  | false =>
    simp only [epMatches] at h
    simp [Episode.search, h]
  | true =>
    simp only [epMatches] at h
    simp [Episode.search, h]

theorem seasonSearchGo_some (t : String) (key : Option String) :
    ∀ eps : List (PyKey × Episode),
      seasonSearchGo (some t) key eps
        = .ok ((eps.map Prod.snd).filter (fun e => epMatches e t key)) := by
  intro eps
  induction eps with
  | nil => rfl
  | cons pe rest ih =>
    cases h : epMatches pe.2 t key
    · simp [seasonSearchGo, episode_search_some, h, ih, List.filter_cons]
    · simp [seasonSearchGo, episode_search_some, h, ih, List.filter_cons,
        Except.map]

theorem showSearchGo_some (t : String) (key : Option String) :
    ∀ l : List (PyKey × Season),
      showSearchGo (some t) key l
        = .ok ((episodesOfSeasons l).filter (fun e => epMatches e t key)) := by
  intro l
  induction l with
  | nil => rfl
  | cons ps rest ih =>
    have hseason : ps.2.search (some t) key
        = .ok ((ps.2.eps.map Prod.snd).filter (fun e => epMatches e t key)) :=
      seasonSearchGo_some t key ps.2.eps
    simp [showSearchGo, hseason, ih, episodesOfSeasons, List.filter_append,
      Except.map]

/-- C7 amended: `search` on a Catalog-entry returns exactly the records
whose fields match, each at most once, in the ENUMERATION (insertion)
order of groups then records — the order in which population inserted
them, which coincides with numeric ascending order only when items arrived
numerically sorted. -/
theorem c7_search_enumeration_order (sh : Show) (t : String)
    (key : Option String) :
    sh.search (some t) key
      = .ok ((allEpisodes sh).filter (fun e => epMatches e t key)) :=
  showSearchGo_some t key sh.seasons

def c7epA : List (String × JVal) :=
  [("airedSeason", .int 2), ("airedEpisodeNumber", .int 1),
    ("episodeName", .str "My First Day")]

def c7epB : List (String × JVal) :=
  [("airedSeason", .int 1), ("airedEpisodeNumber", .int 1),
    ("episodeName", .str "My First Step")]

/-- The entry populated from a fetched sequence in which a season-2 item
precedes a season-1 item (the wire order is not guaranteed sorted). -/
def c7show : Show :=
  ⟨[(.int 2, ⟨[(.int 1, ⟨c7epA⟩)]⟩), (.int 1, ⟨[(.int 1, ⟨c7epB⟩)]⟩)], []⟩

/-- Structural `a ≤ b` on Int (true iff `b - a` is nonnegative). -/
def intLeB (a b : Int) : Bool :=
  match b - a with
  | Int.ofNat _ => true
  | Int.negSucc _ => false

/-- The season-number list is in ascending numeric order. -/
def intsAscending : List Int → Bool
  | a :: b :: rest => intLeB a b && intsAscending (b :: rest)
  | _ => true

/-- The `airedSeason` numbers of a result list, for stating order. -/
def intSeasonsOf (l : List Episode) : List Int :=
  l.filterMap (fun e =>
    match dictGet? e.fields "airedSeason" with
    | some (JVal.int n) => some n
    | some JVal.null => none
    | some (JVal.str _) => none
    | none => none)

/-- C7 counterexample: a populated entry whose groups were inserted out of
numeric order returns search results in season order 2 then 1 — not
numeric ascending order. -/
theorem c7_numeric_order_counterexample :
    Tvdb.processEpisodes false 0 7 (ShowContainer.init Nat Show 0)
        [c7epA, c7epB]
        = .ok ⟨[(7, c7show)], [7], 0⟩
      ∧ c7show.search (some "first") (some "episodeName")
        = .ok [⟨c7epA⟩, ⟨c7epB⟩]
      ∧ intSeasonsOf [⟨c7epA⟩, ⟨c7epB⟩] = [2, 1]
      ∧ intsAscending (intSeasonsOf [⟨c7epA⟩, ⟨c7epB⟩]) = false := by
  decide

/-! ## C8: ensure-then-get on (sid, season, episode) paths -/

def showAt (shows : ShowContainer Nat Show) (sid : Nat) : Show :=
  (dictGet? shows.store sid).getD emptyShow

def seasonAt (sh : Show) (seas : PyKey) : Season :=
  (dictGet? sh.seasons seas).getD ⟨[]⟩

def epAt (se : Season) (ep : PyKey) : Episode :=
  (dictGet? se.eps ep).getD ⟨[]⟩

theorem container_ensure_get (shows : ShowContainer Nat Show) (now sid : Nat) :
    dictGet? (if (dictGet? shows.store sid).isSome then shows
              else shows.setitem now sid emptyShow).store sid
      = some (showAt shows sid) := by
  cases h : dictGet? shows.store sid with
  | some sh => simp [showAt, h]
  | none => simp [showAt, h, ShowContainer.setitem_get_self]

theorem show_ensure_seasons (sh : Show) (seas : PyKey) :
    dictGet? (if (dictGet? sh.seasons seas).isSome then sh
              else { sh with seasons := dictSet sh.seasons seas ⟨[]⟩ }).seasons
        seas
      = some (seasonAt sh seas) := by
  cases h : dictGet? sh.seasons seas with
  | some se => simp [seasonAt, h]
  | none => simp [seasonAt, h, dictGet?_dictSet_self]

theorem season_ensure_eps (se : Season) (ep : PyKey) :
    dictGet? (if (dictGet? se.eps ep).isSome then se
              else { se with eps := dictSet se.eps ep ⟨[]⟩ }).eps ep
      = some (epAt se ep) := by
  cases h : dictGet? se.eps ep with
  | some e => simp [epAt, h]
  | none => simp [epAt, h, dictGet?_dictSet_self]

/-- `_setItem` followed by the read path returns the episode at the path,
which is the previously-existing episode (empty when freshly created) with
just the one attribute set. -/
theorem getRecord_setItem (now : Nat) (shows : ShowContainer Nat Show)
    (sid : Nat) (seas ep : PyKey) (a : String) (v : JVal) :
    getRecord (Tvdb.setItem now shows sid seas ep a v) sid seas ep
      = some ⟨dictSet (epAt (seasonAt (showAt shows sid) seas) ep).fields a v⟩ := by
  simp only [getRecord, Tvdb.setItem]
  rw [dictGet?_dictModify_self, container_ensure_get]
  simp only [Option.map, Option.bind]
  rw [dictGet?_dictModify_self, show_ensure_seasons]
  simp only [Option.map, Option.bind]
  rw [dictGet?_dictModify_self, season_ensure_eps]
  simp only [Option.map, Option.bind]

theorem pathAt_of_getRecord (shows : ShowContainer Nat Show) (sid : Nat)
    (seas ep : PyKey) (e : Episode)
    (h : getRecord shows sid seas ep = some e) :
    epAt (seasonAt (showAt shows sid) seas) ep = e := by
  unfold getRecord at h
  cases hx : dictGet? shows.store sid with
  | none =>
    rw [hx] at h
    simp at h
  | some sh =>
    rw [hx] at h
    simp only [Option.bind] at h
    cases hy : dictGet? sh.seasons seas with
    | none =>
      rw [hy] at h
      simp at h
    | some se =>
      rw [hy] at h
      simp only [Option.bind] at h
      simp [showAt, hx, seasonAt, hy, epAt, h]

/-- C8: inserting an attribute at a `(sid, season, episode)` tuple via
`_setItem` makes a subsequent read of the same tuple return the record
node holding it, and a second `_setItem` on the existing path reuses that
node — the read then returns the same record extended by only the new
attribute, with previously stored fields intact (node identity is value
identity in this persistent embedding). -/
theorem c8_ensure_get_idempotent (now now2 : Nat)
    (shows : ShowContainer Nat Show) (sid : Nat) (seas ep : PyKey)
    (a1 a2 : String) (v1 v2 : JVal) :
    ∃ e1 : Episode,
      getRecord (Tvdb.setItem now shows sid seas ep a1 v1) sid seas ep
          = some e1
        ∧ dictGet? e1.fields a1 = some v1
        ∧ getRecord (Tvdb.setItem now2
              (Tvdb.setItem now shows sid seas ep a1 v1) sid seas ep a2 v2)
              sid seas ep
            = some ⟨dictSet e1.fields a2 v2⟩
        ∧ (a1 ≠ a2 → dictGet? (dictSet e1.fields a2 v2) a1 = some v1) := by
  refine ⟨⟨dictSet (epAt (seasonAt (showAt shows sid) seas) ep).fields a1 v1⟩,
    getRecord_setItem now shows sid seas ep a1 v1, dictGet?_dictSet_self _ _ _,
    ?_, ?_⟩
  · rw [getRecord_setItem now2 _ sid seas ep a2 v2,
      pathAt_of_getRecord _ sid seas ep _
        (getRecord_setItem now shows sid seas ep a1 v1)]
  · intro hne
    rw [dictGet?_dictSet_ne _ a2 a1 v2 hne, dictGet?_dictSet_self]

end TvdbApi
